import Mathlib

/-!
Verification of `src/vs/workbench/common/actions.ts` (workbench action
registration and dispatch bridge).

The file embeds the two responsibilities of the source module:

* the Registrar (`_registerWorkbenchCommandFromAction`), modelled as a
  state-transforming function over the shared registries it mutates, and
* the Invoker (`_createCommandHandler` / `_triggerAndDisposeAction`),
  modelled as a function from the behaviour of the external collaborators
  (instance-creation facility, readiness gate, the instance's own `run`)
  to the trace of observable events of one invocation together with the
  handler's synchronous outcome.

JavaScript truthiness (`descriptor.label`, `args && args.from || ...`),
promise chaining (`then` with success/error continuations, `done`,
`TPromise.as`, `TPromise.wrapError`) and the try/catch around `run` are
translated faithfully.
-/

namespace WorkbenchActions

/-- Keybinding spec of a descriptor (`IKeybindings`): optional primary and
secondary chords plus per-platform overrides.  Chords are abstract codes. -/
structure IKeybindings where
  primary : Option Nat
  secondary : Option (List Nat)
  win : Option Nat
  mac : Option Nat
  linux : Option Nat
deriving Repr, DecidableEq

/-- The fields of `SyncActionDescriptor` that the module reads
(`id`, `label`, `keybindingContext`, `keybindingWeight`, `keybindings`).
The constructible action type (`syncDescriptor`) is not a datum here: the
behaviour of instantiating it is part of the invocation environment `Env`
below.  The activation predicate is kept as an opaque token. -/
structure SyncActionDescriptor where
  id : String
  label : Option String
  keybindingContext : Option String
  keybindingWeight : Option Int
  keybindings : Option IKeybindings
deriving Repr, DecidableEq

/-- JavaScript truthiness of an optional string: `undefined` and the empty
string are falsy, any other string is truthy. -/
def truthyStr : Option String → Bool
  | none => false
  | some s => s ≠ ""

/-- Modelled from the spec: `KeybindingsRegistry.WEIGHT.workbenchContrib()`,
the standard "workbench contribution" default weight, lives outside `src/`;
the spec only calls it "a standard default weight", so it is one fixed
constant here. -/
def workbenchContribWeight : Int := 200

/-- The keybinding rule record passed to
`KeybindingsRegistry.registerKeybindingRule` (lines 52-61 of the source). -/
structure KeybindingRule where
  id : String
  weight : Int
  when : Option String
  primary : Option Nat
  secondary : Option (List Nat)
  win : Option Nat
  mac : Option Nat
  linux : Option Nat
deriving Repr, DecidableEq

/-- The rule built by `_registerWorkbenchCommandFromAction`: weight defaults
only when `keybindingWeight` is `undefined` (`typeof ... === 'undefined'`),
and each chord field is `keybindings && keybindings.<field>`. -/
def mkKeybindingRule (d : SyncActionDescriptor) : KeybindingRule :=
  { id := d.id
    weight := match d.keybindingWeight with
      | none => workbenchContribWeight
      | some w => w
    when := d.keybindingContext
    primary := d.keybindings.bind IKeybindings.primary
    secondary := d.keybindings.bind IKeybindings.secondary
    win := d.keybindings.bind IKeybindings.win
    mac := d.keybindings.bind IKeybindings.mac
    linux := d.keybindings.bind IKeybindings.linux }

/-- The command-UI record built on lines 68-72 of the source:
`id`, `title.value` (the label), `title.original` (the alias) and the
optional category.  It is handed both to `MenuRegistry.addCommand` and,
wrapped as a palette menu item, to `MenuRegistry.appendMenuItem`. -/
structure CommandUI where
  id : String
  titleValue : String
  titleOriginal : String
  category : Option String
deriving Repr, DecidableEq

/-- Modelled from the spec: the shared global registries the Registrar
mutates (command table, keybinding rule table, menu/command-title table)
live outside `src/`; per the boundary contracts they are tables keyed by
the registered records. -/
structure RegistryState where
  commands : List String
  keybindingRules : List KeybindingRule
  commandTitles : List CommandUI
  paletteItems : List CommandUI
deriving Repr, DecidableEq

/-- One entry of the `registrations` array of disposables.  The code pushes
the disposable of `CommandsRegistry.registerCommand` and (label permitting)
the disposable of `MenuRegistry.appendMenuItem`; the effect of
`MenuRegistry.addCommand` is never pushed. -/
inductive Registration
  | command (id : String)
  | paletteItem (cmd : CommandUI)
deriving Repr, DecidableEq

/-- `_registerWorkbenchCommandFromAction` (lines 42-83): register the
command, register exactly one keybinding rule, and — only when
`descriptor.label` is truthy — publish the command title and append the
palette menu item.  Returns the new registry state together with the
`registrations` list combined into the returned disposable. -/
def registerWorkbenchAction (s : RegistryState) (d : SyncActionDescriptor)
    (alias' : String) (category : Option String) :
    RegistryState × List Registration :=
  let s := { s with commands := d.id :: s.commands }
  let regs := [Registration.command d.id]
  let s := { s with keybindingRules := mkKeybindingRule d :: s.keybindingRules }
  if truthyStr d.label then
    let cmd : CommandUI :=
      { id := d.id
        titleValue := d.label.getD ""
        titleOriginal := alias'
        category := category }
    let s := { s with
      commandTitles := cmd :: s.commandTitles
      paletteItems := cmd :: s.paletteItems }
    (s, regs ++ [Registration.paletteItem cmd])
  else
    (s, regs)

/-- Modelled from the spec: disposing one sub-registration.  Per the
boundary contracts, the disposable of `registerCommand` retracts the
command entry and the disposable of `appendMenuItem` retracts the palette
item; `addCommand` returns no disposable, so no registration retracts a
command title, and no registration retracts a keybinding rule. -/
def disposeRegistration (s : RegistryState) : Registration → RegistryState
  | Registration.command id => { s with commands := s.commands.erase id }
  | Registration.paletteItem cmd =>
      { s with paletteItems := s.paletteItems.erase cmd }

/-- `combinedDisposable(registrations).dispose()`: dispose every
sub-registration in order. -/
def disposeHandle (s : RegistryState) (regs : List Registration) :
    RegistryState :=
  regs.foldl disposeRegistration s

/-- `Severity` from `vs/base/common/severity`. -/
inductive Severity
  | Ignore
  | Info
  | Warning
  | Error
deriving Repr, DecidableEq

/-- Behaviour of the action instance's `run` operation for one invocation:
it may return a value (or a promise that resolves), return a promise that
rejects with `err`, or throw `err` synchronously. -/
inductive RunBehavior
  | success
  | rejects (err : String)
  | throws (err : String)
deriving Repr, DecidableEq

/-- The action instance produced by
`instantiationService.createInstance(descriptor.syncDescriptor)`: its own
default `label`, its `enabled` flag, and the behaviour of its `run`. -/
structure ActionInstance where
  label : String
  enabled : Bool
  runBehavior : RunBehavior
deriving Repr, DecidableEq

/-- Behaviour of the instance-creation facility for one invocation:
`createInstance` is synchronous and may throw. -/
inductive CreateBehavior
  | ok (inst : ActionInstance)
  | throws (err : String)
deriving Repr, DecidableEq

/-- Behaviour of the readiness gate for one invocation: the promise
returned by `partService.joinCreation()` either (eventually) resolves or
rejects with `err`. -/
inductive GateBehavior
  | resolves
  | rejects (err : String)
deriving Repr, DecidableEq

/-- The external collaborators' behaviour for one invocation of the
handler.  The notification channel (`messageService.show`) is
fire-and-forget and always available; service resolution itself is assumed
to succeed (resolution failures are outside the handler's error funnel). -/
structure Env where
  createInstance : CreateBehavior
  joinCreation : GateBehavior
deriving Repr, DecidableEq

/-- Observable events of one invocation, in program order.  `runCalled`
records the two arguments of `actionInstance.run(undefined, { from })`:
the explicit target (always `undefined` in the source) and the `from`
field of the context object.  `notifyShow` records a call
`messageService.show(severity, err)`. -/
inductive Event
  | createCalled
  | disposeCalled
  | joinCreationCalled
  | gateResolved
  | runCalled (target : Option Nat) (fromArg : String)
  | notifyShow (sev : Severity) (err : String)
deriving Repr, DecidableEq

/-- Outcome of `_triggerAndDisposeAction` as seen by its caller: the
returned promise resolves, the returned promise rejects with `err`, or the
call itself throws `err` synchronously (before any promise exists). -/
inductive TOutcome
  | value
  | rejected (err : String)
  | threw (err : String)
deriving Repr, DecidableEq

/-- The caller-supplied `args` value: only its `from` property is read.
`fromArg` models `args.from`, which may itself be absent. -/
structure InvocationArgs where
  fromArg : Option String
deriving Repr, DecidableEq

/-- `const from = args && args.from || 'keybinding';` (line 108): JavaScript
truthiness, so an absent `args`, an absent `from`, and an empty-string
`from` all fall back to `'keybinding'`. -/
def resolveFrom : Option InvocationArgs → String
  | none => "keybinding"
  | some a => match a.fromArg with
    | none => "keybinding"
    | some s => if s = "" then "keybinding" else s

/-- `_triggerAndDisposeAction` (lines 97-124), as the event trace it
produces together with its outcome:

* `createInstance` may throw synchronously, in which case nothing else
  happens and the call throws;
* the instance's label is overwritten by the descriptor's label when that
  is truthy (line 99);
* a disabled instance is disposed at once and `void 0` is returned;
* otherwise `joinCreation()` is called; if its promise rejects, the
  one-continuation `then` propagates the rejection (the continuation — and
  hence the disposal inside it — never runs);
* after the gate resolves, `run(undefined, { from })` is invoked inside
  `try`: on resolution the instance is disposed and the promise resolves,
  on rejection or synchronous throw the instance is disposed and the error
  is re-raised via `TPromise.wrapError`. -/
def triggerAndDisposeAction (env : Env) (d : SyncActionDescriptor)
    (args : Option InvocationArgs) : List Event × TOutcome :=
  match env.createInstance with
  | CreateBehavior.throws e => ([Event.createCalled], TOutcome.threw e)
  | CreateBehavior.ok inst =>
    let inst := { inst with
      label := if truthyStr d.label then d.label.getD "" else inst.label }
    if !inst.enabled then
      ([Event.createCalled, Event.disposeCalled], TOutcome.value)
    else
      let fromVal := resolveFrom args
      match env.joinCreation with
      | GateBehavior.rejects e =>
          ([Event.createCalled, Event.joinCreationCalled], TOutcome.rejected e)
      | GateBehavior.resolves =>
        match inst.runBehavior with
        | RunBehavior.success =>
            ([Event.createCalled, Event.joinCreationCalled,
              Event.gateResolved, Event.runCalled none fromVal,
              Event.disposeCalled], TOutcome.value)
        | RunBehavior.rejects e =>
            ([Event.createCalled, Event.joinCreationCalled,
              Event.gateResolved, Event.runCalled none fromVal,
              Event.disposeCalled], TOutcome.rejected e)
        | RunBehavior.throws e =>
            ([Event.createCalled, Event.joinCreationCalled,
              Event.gateResolved, Event.runCalled none fromVal,
              Event.disposeCalled], TOutcome.rejected e)

/-- The handler produced by `_createCommandHandler(descriptor)`
(lines 85-95), including the settlement of the asynchronous chain:
`TPromise.as(this._triggerAndDisposeAction(...)).done(null, err =>
messageService.show(Severity.Error, err))`.  The argument of
`TPromise.as` is evaluated first, so a synchronous throw from
`_triggerAndDisposeAction` escapes the handler synchronously (returned as
`some err`); a rejected promise reaches the error continuation, which
shows one error-severity notification; a resolved promise does nothing
more.  The result is the full event trace and the handler's synchronous
throw, if any. -/
def commandHandler (env : Env) (d : SyncActionDescriptor)
    (args : Option InvocationArgs) : List Event × Option String :=
  match triggerAndDisposeAction env d args with
  | (tr, TOutcome.threw e) => (tr, some e)
  | (tr, TOutcome.value) => (tr, none)
  | (tr, TOutcome.rejected e) =>
      (tr ++ [Event.notifyShow Severity.Error e], none)

/-- Number of `dispose` calls on the action instance in a trace. -/
def disposeCount (tr : List Event) : Nat :=
  (tr.filter fun ev => match ev with
    | Event.disposeCalled => true
    | _ => false).length

/-- Number of calls to `partService.joinCreation()` in a trace. -/
def gateCallCount (tr : List Event) : Nat :=
  (tr.filter fun ev => match ev with
    | Event.joinCreationCalled => true
    | _ => false).length

/-- The `run` calls of a trace, in order, with their recorded arguments. -/
def runEvents (tr : List Event) : List Event :=
  tr.filter fun ev => match ev with
    | Event.runCalled _ _ => true
    | _ => false

/-- Number of `run` calls on the action instance in a trace. -/
def runCount (tr : List Event) : Nat :=
  (runEvents tr).length

/-- The notification calls of a trace, in order. -/
def notifications (tr : List Event) : List Event :=
  tr.filter fun ev => match ev with
    | Event.notifyShow _ _ => true
    | _ => false

/-- Checks that no `run` call occurs unless a `gateResolved` event occurred
strictly earlier in the trace; `gateSeen` carries whether the gate has
already resolved before the remaining suffix. -/
def runsOnlyAfterGate (gateSeen : Bool) : List Event → Bool
  | [] => true
  | Event.runCalled _ _ :: tl => gateSeen && runsOnlyAfterGate gateSeen tl
  | Event.gateResolved :: tl => runsOnlyAfterGate true tl
  | _ :: tl => runsOnlyAfterGate gateSeen tl

/-! Concrete fixtures, used by witnesses and counterexamples. -/

/-- A sample descriptor with a non-empty label and no keybinding data. -/
def exDescriptor : SyncActionDescriptor :=
  { id := "test.cmd"
    label := some "Test Command"
    keybindingContext := none
    keybindingWeight := none
    keybindings := none }

/-- A sample descriptor with an absent label, an activation predicate, a
weight of zero and a full keybinding spec. -/
def exDescriptorKb : SyncActionDescriptor :=
  { id := "kb.cmd"
    label := none
    keybindingContext := some "ctx"
    keybindingWeight := some 0
    keybindings := some
      { primary := some 1, secondary := some [2], win := none,
        mac := some 3, linux := none } }

/-- A sample enabled action instance whose `run` succeeds. -/
def exInstance : ActionInstance :=
  { label := "default", enabled := true, runBehavior := RunBehavior.success }

/-- The empty registry state. -/
def emptyRegistry : RegistryState :=
  { commands := [], keybindingRules := [], commandTitles := [],
    paletteItems := [] }

/-! Claims. -/

/-- C1 counterexample: when the instance-creation facility throws
synchronously, `TPromise.as(this._triggerAndDisposeAction(...))` evaluates
its argument first, so the exception escapes the handler synchronously and
no notification is shown — contrary to the claim that such a failure is
delivered only through the notification channel. -/
theorem C1_counterexample_sync_create_throw_escapes :
    (commandHandler
      { createInstance := CreateBehavior.throws "boom",
        joinCreation := GateBehavior.resolves }
      exDescriptor none).2 = some "boom" ∧
    notifications (commandHandler
      { createInstance := CreateBehavior.throws "boom",
        joinCreation := GateBehavior.resolves }
      exDescriptor none).1 = [] := by
  decide

/-- C1 (amended): whenever instance creation succeeds, the handler never
throws synchronously and every failure of the trigger-and-dispose
operation is delivered as exactly one notification at error severity
carrying that failure; a synchronous throw from the instance-creation
facility, however, escapes the handler synchronously with no
notification. -/
theorem C1_amended_failures_funnel_to_notification (env : Env)
    (d : SyncActionDescriptor) (args : Option InvocationArgs) :
    (∀ inst, env.createInstance = CreateBehavior.ok inst →
      (commandHandler env d args).2 = none ∧
      notifications (commandHandler env d args).1 =
        (match (triggerAndDisposeAction env d args).2 with
          | TOutcome.rejected e => [Event.notifyShow Severity.Error e]
          | _ => [])) ∧
    (∀ e, env.createInstance = CreateBehavior.throws e →
      commandHandler env d args = ([Event.createCalled], some e)) := by
  obtain ⟨ci, jc⟩ := env
  cases ci with
  | throws e =>
    refine ⟨fun inst h => absurd h (by simp), fun e' h => ?_⟩
    have h' : CreateBehavior.throws e = CreateBehavior.throws e' := h
    cases h'
    exact rfl
  | ok inst =>
    refine ⟨fun inst' _ => ?_, fun e h => absurd h (by simp)⟩
    obtain ⟨l, en, rb⟩ := inst
    cases en <;> cases jc <;> cases rb <;> exact ⟨rfl, rfl⟩

/-- C1 (amended) witness at a concrete successful invocation. -/
theorem C1_amended_witness :
    (commandHandler
      { createInstance := CreateBehavior.ok exInstance,
        joinCreation := GateBehavior.resolves }
      exDescriptor none).2 = none :=
  ((C1_amended_failures_funnel_to_notification
    { createInstance := CreateBehavior.ok exInstance,
      joinCreation := GateBehavior.resolves }
    exDescriptor none).1 exInstance rfl).1

/-- C2 counterexample: an enabled instance whose readiness gate rejects is
never disposed — the one-continuation `then` skips the disposal — contrary
to the claim that every successfully created instance is disposed exactly
once on every exit path. -/
theorem C2_counterexample_gate_rejection_leaks_instance :
    disposeCount (commandHandler
      { createInstance := CreateBehavior.ok exInstance,
        joinCreation := GateBehavior.rejects "gate failure" }
      exDescriptor none).1 = 0 := by
  decide

/-- C2 (amended): a successfully created instance is disposed exactly once
on the disabled path and on every path where the readiness gate resolves
(run success, run rejection, synchronous throw from run); but when the
instance is enabled and the readiness gate rejects, the instance is never
disposed (it leaks). -/
theorem C2_amended_dispose_once_unless_gate_rejects
    (inst : ActionInstance) (jc : GateBehavior) (d : SyncActionDescriptor)
    (args : Option InvocationArgs) :
    disposeCount (commandHandler
      { createInstance := CreateBehavior.ok inst, joinCreation := jc }
      d args).1 =
      (match inst.enabled, jc with
        | true, GateBehavior.rejects _ => 0
        | _, _ => 1) := by
  obtain ⟨l, en, rb⟩ := inst
  cases en <;> cases jc <;> cases rb <;> rfl

/-- C3: an enabled instance whose run operation rejects or throws is
disposed exactly once and the notification channel's show is called
exactly once, at error severity, with that same failure. -/
theorem C3_run_failure_one_dispose_one_error_notification
    (lab : String) (rb : RunBehavior) (e : String)
    (d : SyncActionDescriptor) (args : Option InvocationArgs)
    (h : rb = RunBehavior.rejects e ∨ rb = RunBehavior.throws e) :
    disposeCount (commandHandler
      { createInstance := CreateBehavior.ok ⟨lab, true, rb⟩,
        joinCreation := GateBehavior.resolves } d args).1 = 1 ∧
    notifications (commandHandler
      { createInstance := CreateBehavior.ok ⟨lab, true, rb⟩,
        joinCreation := GateBehavior.resolves } d args).1 =
      [Event.notifyShow Severity.Error e] := by
  rcases h with rfl | rfl <;> exact ⟨rfl, rfl⟩

/-- C3 witness at a concrete rejecting run. -/
theorem C3_witness :
    disposeCount (commandHandler
      { createInstance := CreateBehavior.ok
          ⟨"w", true, RunBehavior.rejects "run failed"⟩,
        joinCreation := GateBehavior.resolves } exDescriptor none).1 = 1 ∧
    notifications (commandHandler
      { createInstance := CreateBehavior.ok
          ⟨"w", true, RunBehavior.rejects "run failed"⟩,
        joinCreation := GateBehavior.resolves } exDescriptor none).1 =
      [Event.notifyShow Severity.Error "run failed"] :=
  C3_run_failure_one_dispose_one_error_notification "w"
    (RunBehavior.rejects "run failed") "run failed" exDescriptor none
    (Or.inl rfl)

/-- C4: a freshly created instance that reports `enabled = false` is
disposed exactly once, its run operation is never called, no notification
is shown, and the handler completes normally with no synchronous throw. -/
theorem C4_disabled_disposed_never_run_no_notification
    (lab : String) (rb : RunBehavior) (jc : GateBehavior)
    (d : SyncActionDescriptor) (args : Option InvocationArgs) :
    disposeCount (commandHandler
      { createInstance := CreateBehavior.ok ⟨lab, false, rb⟩,
        joinCreation := jc } d args).1 = 1 ∧
    runCount (commandHandler
      { createInstance := CreateBehavior.ok ⟨lab, false, rb⟩,
        joinCreation := jc } d args).1 = 0 ∧
    notifications (commandHandler
      { createInstance := CreateBehavior.ok ⟨lab, false, rb⟩,
        joinCreation := jc } d args).1 = [] ∧
    (commandHandler
      { createInstance := CreateBehavior.ok ⟨lab, false, rb⟩,
        joinCreation := jc } d args).2 = none :=
  ⟨rfl, rfl, rfl, rfl⟩

/-- C5: register installs exactly one keybinding rule, keyed by the
descriptor's id, whose weight is the descriptor's weight when present
(including zero) and the workbench-contribution default otherwise, whose
`when` is the descriptor's activation predicate, and whose chord fields
are taken verbatim from the keybinding spec when present and are all
absent otherwise. -/
theorem C5_keybinding_rule_fields (s : RegistryState)
    (d : SyncActionDescriptor) (alias' : String) (category : Option String) :
    (registerWorkbenchAction s d alias' category).1.keybindingRules =
      mkKeybindingRule d :: s.keybindingRules ∧
    (mkKeybindingRule d).id = d.id ∧
    (mkKeybindingRule d).when = d.keybindingContext ∧
    (∀ w, d.keybindingWeight = some w → (mkKeybindingRule d).weight = w) ∧
    (d.keybindingWeight = none →
      (mkKeybindingRule d).weight = workbenchContribWeight) ∧
    (∀ kb, d.keybindings = some kb →
      (mkKeybindingRule d).primary = kb.primary ∧
      (mkKeybindingRule d).secondary = kb.secondary ∧
      (mkKeybindingRule d).win = kb.win ∧
      (mkKeybindingRule d).mac = kb.mac ∧
      (mkKeybindingRule d).linux = kb.linux) ∧
    (d.keybindings = none →
      (mkKeybindingRule d).primary = none ∧
      (mkKeybindingRule d).secondary = none ∧
      (mkKeybindingRule d).win = none ∧
      (mkKeybindingRule d).mac = none ∧
      (mkKeybindingRule d).linux = none) := by
  refine ⟨?_, rfl, rfl, ?_, ?_, ?_, ?_⟩
  · by_cases h : truthyStr d.label <;> simp [registerWorkbenchAction, h]
  · intro w h
    simp [mkKeybindingRule, h]
  · intro h
    simp [mkKeybindingRule, h]
  · intro kb h
    simp [mkKeybindingRule, h]
  · intro h
    simp [mkKeybindingRule, h]

/-- C5 witness: the descriptor with weight zero and a full keybinding spec
gets exactly one rule, with weight zero and its primary chord verbatim. -/
theorem C5_witness :
    (registerWorkbenchAction emptyRegistry exDescriptorKb "A" none).1.keybindingRules =
      [mkKeybindingRule exDescriptorKb] ∧
    (mkKeybindingRule exDescriptorKb).weight = 0 ∧
    (mkKeybindingRule exDescriptorKb).primary = some 1 := by
  have h := C5_keybinding_rule_fields emptyRegistry exDescriptorKb "A" none
  exact ⟨h.1, h.2.2.2.1 0 rfl,
    (h.2.2.2.2.2.1
      { primary := some 1, secondary := some [2], win := none,
        mac := some 3, linux := none } rfl).1⟩

/-- C6: register publishes a command title built from the label, the alias
and the category, and appends a command-palette entry, if and only if the
descriptor's label is non-empty; with an empty or absent label neither is
created, while the command itself is registered under the descriptor's id
in every case. -/
theorem C6_palette_entry_iff_nonempty_label (s : RegistryState)
    (d : SyncActionDescriptor) (alias' : String) (category : Option String) :
    (truthyStr d.label = true →
      (registerWorkbenchAction s d alias' category).1.commandTitles =
        { id := d.id, titleValue := d.label.getD "",
          titleOriginal := alias', category := category } :: s.commandTitles ∧
      (registerWorkbenchAction s d alias' category).1.paletteItems =
        { id := d.id, titleValue := d.label.getD "",
          titleOriginal := alias', category := category } :: s.paletteItems) ∧
    (truthyStr d.label = false →
      (registerWorkbenchAction s d alias' category).1.commandTitles =
        s.commandTitles ∧
      (registerWorkbenchAction s d alias' category).1.paletteItems =
        s.paletteItems) ∧
    (registerWorkbenchAction s d alias' category).1.commands =
      d.id :: s.commands := by
  refine ⟨fun h => ?_, fun h => ?_, ?_⟩
  · simp [registerWorkbenchAction, h]
  · simp [registerWorkbenchAction, h]
  · by_cases h : truthyStr d.label <;> simp [registerWorkbenchAction, h]

/-- C6 witness: a labelled descriptor gets a palette entry carrying label,
alias and category; an unlabelled one gets none, yet its command is
registered. -/
theorem C6_witness :
    (registerWorkbenchAction emptyRegistry exDescriptor "Alias"
      (some "Cat")).1.paletteItems =
      [{ id := "test.cmd", titleValue := "Test Command",
         titleOriginal := "Alias", category := some "Cat" }] ∧
    (registerWorkbenchAction emptyRegistry exDescriptorKb "A"
      none).1.paletteItems = [] ∧
    (registerWorkbenchAction emptyRegistry exDescriptorKb "A"
      none).1.commands = ["kb.cmd"] := by
  have h1 := C6_palette_entry_iff_nonempty_label emptyRegistry exDescriptor
    "Alias" (some "Cat")
  have h2 := C6_palette_entry_iff_nonempty_label emptyRegistry exDescriptorKb
    "A" none
  exact ⟨(h1.1 (by decide)).2, (h2.2.1 rfl).2, h2.2.2⟩

/-- C7 counterexample: after registering the sample labelled descriptor
into the empty registry and disposing the returned handle, the published
command title is still present — the effect of `MenuRegistry.addCommand`
is never pushed onto the `registrations` array — contrary to the claim
that disposal removes the command title. -/
theorem C7_counterexample_title_persists_after_dispose :
    (disposeHandle
      (registerWorkbenchAction emptyRegistry exDescriptor "Test Command"
        none).1
      (registerWorkbenchAction emptyRegistry exDescriptor "Test Command"
        none).2).commandTitles =
      [{ id := "test.cmd", titleValue := "Test Command",
         titleOriginal := "Test Command", category := none }] := by
  decide

/-- C7 (amended): for a descriptor with a non-empty label, before disposal
the command is registered and the palette entry present; disposing the
returned handle removes the command registration and the palette entry,
while the published command title and the keybinding rule persist. -/
theorem C7_amended_dispose_removes_palette_and_command
    (s : RegistryState) (d : SyncActionDescriptor) (alias' : String)
    (category : Option String) (h : truthyStr d.label = true) :
    d.id ∈ (registerWorkbenchAction s d alias' category).1.commands ∧
    ({ id := d.id, titleValue := d.label.getD "", titleOriginal := alias',
       category := category } : CommandUI) ∈
      (registerWorkbenchAction s d alias' category).1.paletteItems ∧
    (disposeHandle (registerWorkbenchAction s d alias' category).1
      (registerWorkbenchAction s d alias' category).2).commands =
      s.commands ∧
    (disposeHandle (registerWorkbenchAction s d alias' category).1
      (registerWorkbenchAction s d alias' category).2).paletteItems =
      s.paletteItems ∧
    (disposeHandle (registerWorkbenchAction s d alias' category).1
      (registerWorkbenchAction s d alias' category).2).commandTitles =
      { id := d.id, titleValue := d.label.getD "", titleOriginal := alias',
        category := category } :: s.commandTitles ∧
    (disposeHandle (registerWorkbenchAction s d alias' category).1
      (registerWorkbenchAction s d alias' category).2).keybindingRules =
      mkKeybindingRule d :: s.keybindingRules := by
  simp [registerWorkbenchAction, h, disposeHandle, disposeRegistration]

/-- C7 (amended) witness at a concrete labelled descriptor. -/
theorem C7_amended_witness :
    (disposeHandle
      (registerWorkbenchAction emptyRegistry exDescriptor "Alias2" none).1
      (registerWorkbenchAction emptyRegistry exDescriptor "Alias2"
        none).2).paletteItems = [] ∧
    (disposeHandle
      (registerWorkbenchAction emptyRegistry exDescriptor "Alias2" none).1
      (registerWorkbenchAction emptyRegistry exDescriptor "Alias2"
        none).2).commands = [] := by
  have h := C7_amended_dispose_removes_palette_and_command emptyRegistry
    exDescriptor "Alias2" none (by decide)
  exact ⟨h.2.2.2.1, h.2.2.1⟩

/-- C8 counterexample: with `args.from` present but equal to the empty
string, the run step receives the origin `'keybinding'` and not the
supplied value — `args && args.from || 'keybinding'` tests truthiness, not
presence — contrary to the claim that the origin is `invocationArgs.from`
whenever present. -/
theorem C8_counterexample_empty_from_falls_back :
    runEvents (commandHandler
      { createInstance := CreateBehavior.ok exInstance,
        joinCreation := GateBehavior.resolves }
      exDescriptor (some { fromArg := some "" })).1 =
      [Event.runCalled none "keybinding"] ∧
    Event.runCalled none "" ∉ (commandHandler
      { createInstance := CreateBehavior.ok exInstance,
        joinCreation := GateBehavior.resolves }
      exDescriptor (some { fromArg := some "" })).1 := by
  decide

/-- C8 (amended): every invocation that reaches the run step calls run
exactly once, with an empty (`undefined`) explicit target and a context
carrying the resolved origin; the origin is `invocationArgs.from` when
present and truthy (non-empty), and the default `'keybinding'` when the
arguments, the `from` field, or its content are absent or empty. -/
theorem C8_amended_origin_resolution (lab : String) (rb : RunBehavior)
    (d : SyncActionDescriptor) (args : Option InvocationArgs) :
    runEvents (commandHandler
      { createInstance := CreateBehavior.ok ⟨lab, true, rb⟩,
        joinCreation := GateBehavior.resolves } d args).1 =
      [Event.runCalled none (resolveFrom args)] ∧
    (∀ a v, args = some a → a.fromArg = some v → v ≠ "" →
      resolveFrom args = v) ∧
    ((args = none ∨
      ∃ a, args = some a ∧ (a.fromArg = none ∨ a.fromArg = some "")) →
      resolveFrom args = "keybinding") := by
  refine ⟨?_, ?_, ?_⟩
  · cases rb <;> rfl
  · rintro a v rfl hv hne
    simp [resolveFrom, hv, hne]
  · rintro (rfl | ⟨a, rfl, hf | hf⟩)
    · rfl
    · simp [resolveFrom, hf]
    · simp [resolveFrom, hf]

/-- C8 (amended) witness: a truthy `from` value is passed through to run. -/
theorem C8_amended_witness :
    runEvents (commandHandler
      { createInstance := CreateBehavior.ok
          ⟨"w", true, RunBehavior.success⟩,
        joinCreation := GateBehavior.resolves }
      exDescriptor (some { fromArg := some "menu" })).1 =
      [Event.runCalled none (resolveFrom (some { fromArg := some "menu" }))] ∧
    resolveFrom (some { fromArg := some "menu" }) = "menu" :=
  ⟨(C8_amended_origin_resolution "w" RunBehavior.success exDescriptor
      (some { fromArg := some "menu" })).1,
    (C8_amended_origin_resolution "w" RunBehavior.success exDescriptor
      (some { fromArg := some "menu" })).2.1 { fromArg := some "menu" }
      "menu" rfl rfl (by decide)⟩

/-- C9: in every invocation trace, the instance's run operation is called
only after the readiness gate has resolved: no `runCalled` event precedes
the `gateResolved` event. -/
theorem C9_run_only_after_gate_resolution (env : Env)
    (d : SyncActionDescriptor) (args : Option InvocationArgs) :
    runsOnlyAfterGate false (commandHandler env d args).1 = true := by
  obtain ⟨ci, jc⟩ := env
  cases ci with
  | throws e => rfl
  | ok inst =>
    obtain ⟨l, en, rb⟩ := inst
    cases en <;> cases jc <;> cases rb <;> rfl

/-- C10: when the freshly created instance is disabled, the readiness gate
is never called — the invocation completes with the fixed trace
`[createCalled, disposeCalled]` and no synchronous throw, independently of
the gate's behaviour. -/
theorem C10_disabled_never_touches_gate (lab : String) (rb : RunBehavior)
    (jc : GateBehavior) (d : SyncActionDescriptor)
    (args : Option InvocationArgs) :
    gateCallCount (commandHandler
      { createInstance := CreateBehavior.ok ⟨lab, false, rb⟩,
        joinCreation := jc } d args).1 = 0 ∧
    commandHandler
      { createInstance := CreateBehavior.ok ⟨lab, false, rb⟩,
        joinCreation := jc } d args =
      ([Event.createCalled, Event.disposeCalled], none) :=
  ⟨rfl, rfl⟩

end WorkbenchActions
